import Mathlib

/-!
Verification of the real-time presence-and-messaging core of the
peregrinapp backend (socket manager, chat service, redis position store,
auth gate) against its design specification.

The JavaScript sources are shallowly embedded:
  - JS numbers used as user ids are modelled as Int (they are integers:
    database ids and parseInt results);
  - coordinates are modelled as rationals;
  - JS Map objects are modelled either as functions into Option or as
    insertion-ordered association lists (matching Map iteration order);
  - JS falsiness of a field is modelled explicitly (absent, null and 0
    are falsy for numbers; absent, null and the empty string for strings);
  - the asynchronous event emissions of one handler invocation are
    collected into an explicit list of events, in emission order.
-/

namespace PeregrinApp

/-- A user identity (socket.userId, a database integer id). -/
abbrev UserId := Int

/-- Message delivery status values used by the socket protocol. -/
inductive Status where
  | pending
  | delivered
  | failed
  | errorStatus
deriving DecidableEq, Repr

/-- A geographic position {longitude, latitude} as stored in Redis. -/
structure GeoPos where
  longitude : ℚ
  latitude : ℚ
deriving DecidableEq, Repr

/-- A JS number: an actual numeric value, or NaN (as parseFloat produces
on undefined input). -/
inductive JSNum where
  | num (q : ℚ)
  | nan
deriving DecidableEq, Repr

/-- A position object as the JS code builds it: each coordinate is a JS
number and may be NaN. -/
structure GeoPosJs where
  longitude : JSNum
  latitude : JSNum
deriving DecidableEq, Repr

/-- The per-user Redis detail hash (user:details:{id}).  Every field is
optional: hSet merges fields, so any subset may be present. -/
structure DetailsHash where
  name : Option String := none
  phoneNumber : Option String := none
  lastUpdate : Option Int := none
  connectionTime : Option Int := none
  disconnectionTime : Option Int := none
deriving DecidableEq, Repr

/-- An entry of the pendingMessages Map (socketManager.js, line 452). -/
structure PendingMsg where
  messageId : String
  senderId : UserId
  recipientId : UserId
  message : String
  timestamp : Int
  expiresAt : Int
deriving DecidableEq, Repr

/-- The payload of a new_message event. -/
structure MsgPayload where
  messageId : String
  senderId : UserId
  recipientId : UserId
  message : String
  timestamp : Int
  status : Status
deriving DecidableEq, Repr

/-- One element of the users_update broadcast list
(socketManager.js, lines 220-227). -/
structure BroadcastEntry where
  id : UserId
  name : String
  location : GeoPosJs
  lastUpdate : Int
deriving DecidableEq, Repr

/-- Server-to-client events emitted by the socket layer.  Events other
than usersUpdate are addressed to the socket of a given user; usersUpdate
is broadcast to all connected clients (io.emit). -/
inductive SEvent where
  | newMessage (dest : UserId) (payload : MsgPayload)
  | messageStatus (dest : UserId) (messageId : Option String) (status : Status)
      (errMsg : Option String) (note : Option String)
  | authenticated (dest : UserId) (userId : UserId) (username : String)
  | usersUpdate (entries : List BroadcastEntry)
  | messageSeen (dest : UserId) (messageId : String) (seenBy : UserId)
deriving DecidableEq, Repr

/-! ## Redis position store (redisService: third segment of userService.js) -/

/-- The Redis-visible state relevant to the presence subsystem:
  - positionKey: the per-user TTL-bound snapshot keys user:position:{id}
    (absent once the 60 s TTL has elapsed);
  - geoIndex: the user:positions geospatial index (no TTL);
  - details: the user:details:{id} hashes (absent if never written). -/
structure RedisState where
  positionKey : UserId → Option GeoPos
  geoIndex : UserId → Option GeoPos
  details : UserId → Option DetailsHash

/-- GEOPOS on the user:positions key for a single member: Redis returns a
one-element array holding the coordinates or null (source line 654). -/
def redisGeopos (r : RedisState) (userId : UserId) : List (Option GeoPos) :=
  [r.geoIndex userId]

/-- Array-indexing an element of the node-redis v4 geoPos reply: the
reply element is an object {longitude, latitude}, not an array, so the
properties 0 and 1 do not exist and the read yields undefined. -/
def geoPosObjIndex (_reply : GeoPos) (_i : Nat) : Option ℚ := none

/-- parseFloat: the numeric value of its argument, NaN when the argument
is undefined. -/
def parseFloatJs : Option ℚ → JSNum
  | none => JSNum.nan
  | some q => JSNum.num q

/-- getUserPosition (userService.js lines 639-667): read the TTL-bound
position key first; if present, JSON.parse and return it; otherwise fall
back to GEOPOS on the geospatial index and return null when the member is
absent.  When the member exists, the source reads positions[0][0] and
positions[0][1]; the v4 reply element is an object, so both reads are
undefined and parseFloat turns them into NaN coordinates. -/
def getUserPosition (r : RedisState) (userId : UserId) : Option GeoPosJs :=
  match r.positionKey userId with
  | some posData => some { longitude := JSNum.num posData.longitude
                           latitude := JSNum.num posData.latitude }
  | none =>
    match redisGeopos r userId with
    | [] => none
    | firstu :: _ =>
      match firstu with
      | none => none
      | some p => some { longitude := parseFloatJs (geoPosObjIndex p 0)
                         latitude := parseFloatJs (geoPosObjIndex p 1) }

/-- getUserDetails (userService.js lines 670-679): hGetAll on the detail
hash.  node-redis hGetAll maps a missing key to the empty object, never to
null, so the result is always a (truthy) object. -/
def getUserDetails (r : RedisState) (userId : UserId) : DetailsHash :=
  (r.details userId).getD {}

/-- storeUserPosition (userService.js lines 588-617): GEOADD into the
index and SET + EXPIRE of the TTL-bound snapshot key (the published
pub/sub notification is not part of the stored state). -/
def storeUserPosition (r : RedisState) (userId : UserId) (longitude latitude : ℚ) :
    RedisState :=
  { r with
    geoIndex := Function.update r.geoIndex userId (some ⟨longitude, latitude⟩)
    positionKey := Function.update r.positionKey userId (some ⟨longitude, latitude⟩) }

/-- The field subset passed to storeUserDetails by its callers. -/
structure DetailsPatch where
  name : Option String := none
  phoneNumber : Option String := none
  connectionTime : Option Int := none
  disconnectionTime : Option Int := none
deriving DecidableEq, Repr

/-- storeUserDetails (userService.js lines 620-636): hSet merges the given
fields into the existing hash (creating it when absent) and always
refreshes lastUpdate with the current time. -/
def storeUserDetails (r : RedisState) (userId : UserId) (patch : DetailsPatch)
    (now : Int) : RedisState :=
  let old := (r.details userId).getD {}
  let merged : DetailsHash :=
    { name := patch.name.orElse fun _ => old.name
      phoneNumber := patch.phoneNumber.orElse fun _ => old.phoneNumber
      connectionTime := patch.connectionTime.orElse fun _ => old.connectionTime
      disconnectionTime := patch.disconnectionTime.orElse fun _ => old.disconnectionTime
      lastUpdate := some now }
  { r with details := Function.update r.details userId (some merged) }

/-! ## Chat session tracker (chatService: second segment of userService.js) -/

/-- The activeChatSessions Map (userId -> Set of partner ids),
modelled as a partial function into finite sets. -/
abbrev SessionsMap := UserId → Option (Finset UserId)

/-- The get-or-create step of trackChatSession: give the user an empty
session set when none exists yet. -/
def ensureKey (s : SessionsMap) (userId : UserId) : SessionsMap :=
  match s userId with
  | none => Function.update s userId (some ∅)
  | some _ => s

/-- trackChatSession (userService.js lines 315-331): create empty session
sets for both users when missing, then add each user to the other's set. -/
def trackChatSession (s : SessionsMap) (userId1 userId2 : UserId) : SessionsMap :=
  let s2 := ensureKey (ensureKey s userId1) userId2
  let s3 := Function.update s2 userId1 (some (insert userId2 ((s2 userId1).getD ∅)))
  Function.update s3 userId2 (some (insert userId1 ((s3 userId2).getD ∅)))

/-- getUserActiveSessions (userService.js lines 334-340): the user's
session set, or empty when the user has no entry. -/
def getUserActiveSessions (s : SessionsMap) (userId : UserId) : Finset UserId :=
  (s userId).getD ∅

/-- cleanupUserSessions (userService.js lines 365-384): given pointwise.
When the user has no entry the map is returned unchanged.  Otherwise the
loop deletes the user from the set of every partner listed in the user's
own set (each iteration touches a distinct key, so the loop equals this
pointwise description) and finally deletes the user's own entry. -/
def cleanupUserSessions (s : SessionsMap) (userId : UserId) : SessionsMap :=
  match s userId with
  | none => s
  | some partners => fun x =>
    if x = userId then none
    else if x ∈ partners then (s x).map (fun t => t.erase userId)
    else s x

/-- The symmetry invariant of the chat-session relation. -/
def SymmSessions (s : SessionsMap) : Prop :=
  ∀ a b : UserId, b ∈ getUserActiveSessions s a → a ∈ getUserActiveSessions s b

/-! ## Socket manager state (src/sockets/socketManager.js) -/

/-- The mutable module-level state of the socket manager:
  - registry: the activeConnections Map, keyed by user id (the socket
    handles themselves carry no information the embedding needs beyond
    which user they belong to);
  - pending: the pendingMessages Map in insertion order (JS Map
    iteration order);
  - sessions: the chat service's activeChatSessions Map;
  - redis: the external store (redisInitialized is taken as true). -/
structure ServerState where
  registry : List UserId
  pending : List PendingMsg
  sessions : SessionsMap
  redis : RedisState

/-- activeConnections.set(userId, socket): a JS Map keeps the insertion
position of an existing key (the handle is overwritten in place); a new
key is appended. -/
def registrySet (l : List UserId) (userId : UserId) : List UserId :=
  if userId ∈ l then l else l ++ [userId]

/-- parseInt(s, 10): skip leading whitespace, read an optional sign and
then a leading run of decimal digits; NaN (none) when no digit follows. -/
def parseIntJs (s : String) : Option Int :=
  let core := fun (l : List Char) (sign : Int) =>
    let digits := l.takeWhile Char.isDigit
    if digits.isEmpty then none
    else some (sign * (digits.foldl (fun a c => 10 * a + ((c.toNat - 48 : Nat) : Int)) 0))
  match s.data.dropWhile (fun c => c == ' ' || c == '\t' || c == '\n' || c == '\r') with
  | [] => none
  | c :: rest =>
    if c = '-' then core rest (-1)
    else if c = '+' then core rest 1
    else core (c :: rest) 1

/-- JS falsiness of an optional string field: absent, null and the empty
string are falsy. -/
def jsFalsyStr : Option String → Bool
  | none => true
  | some t => t = ""

/-- JS falsiness of an optional numeric field: absent, null and 0 are
falsy. -/
def jsFalsyNum : Option ℚ → Bool
  | none => true
  | some q => q = 0

/-- JS s || fallback for an optional string: the fallback is used when the
string is absent or empty (the messageId || generated-id pattern). -/
def jsStrOr (o : Option String) (fallback : String) : String :=
  match o with
  | some m => if m = "" then fallback else m
  | none => fallback

/-- pendingMessages.get(messageId). -/
def pendingLookup (l : List PendingMsg) (messageId : String) : Option PendingMsg :=
  l.find? (fun e => e.messageId = messageId)

/-- pendingMessages.set(e.messageId, e): overwrite in place when the key
exists (JS Map keeps the original insertion position), append otherwise. -/
def pendingSet (l : List PendingMsg) (e : PendingMsg) : List PendingMsg :=
  if l.any (fun x => x.messageId = e.messageId) then
    l.map (fun x => if x.messageId = e.messageId then e else x)
  else l ++ [e]

/-- pendingMessages.delete(messageId). -/
def pendingDelete (l : List PendingMsg) (messageId : String) : List PendingMsg :=
  l.filter (fun e => e.messageId ≠ messageId)

/-- The new_message payload built from a stored pending message on
delivery (status delivered). -/
def deliveredPayload (e : PendingMsg) : MsgPayload :=
  { messageId := e.messageId, senderId := e.senderId, recipientId := e.recipientId
    message := e.message, timestamp := e.timestamp, status := Status.delivered }

/-- Notify the original sender of a delivery, if the sender is still
connected (the activeConnections.has(senderId) guard shared by
attemptDelivery, deliverPendingMessages and the expiry sweep). -/
def senderNotify (registry : List UserId) (e : PendingMsg) : List SEvent :=
  if e.senderId ∈ registry then
    [SEvent.messageStatus e.senderId (some e.messageId) Status.delivered none none]
  else []

/-- Loop body of deliverPendingMessages (socketManager.js lines 716-743):
walk the pending table in insertion order; for every entry addressed to
userId whose socket is present, emit the message, notify the sender when
connected, and drop the entry. -/
def flushPending (registry : List UserId) (userId : UserId) :
    List PendingMsg → List PendingMsg × List SEvent
  | [] => ([], [])
  | e :: rest =>
    if e.recipientId = userId then
      if userId ∈ registry then
        ((flushPending registry userId rest).1,
          SEvent.newMessage userId (deliveredPayload e) ::
            (senderNotify registry e ++ (flushPending registry userId rest).2))
      else (e :: (flushPending registry userId rest).1, (flushPending registry userId rest).2)
    else (e :: (flushPending registry userId rest).1, (flushPending registry userId rest).2)

/-- deliverPendingMessages (socketManager.js lines 713-750). -/
def deliverPendingMessages (s : ServerState) (userId : UserId) :
    ServerState × List SEvent :=
  let (keep, evs) := flushPending s.registry userId s.pending
  ({ s with pending := keep }, evs)

/-- The failed status event the expiry sweep sends to the original
sender of an expired pending message. -/
def failedEvt (e : PendingMsg) : SEvent :=
  SEvent.messageStatus e.senderId (some e.messageId) Status.failed
    (some "Recipient remained offline") none

/-- Loop body of the expiry sweep (socketManager.js lines 694-710): every
entry strictly past its expiresAt is dropped, with a failed status to the
sender when the sender is still connected. -/
def sweepAux (registry : List UserId) (now : Int) :
    List PendingMsg → List PendingMsg × List SEvent
  | [] => ([], [])
  | e :: rest =>
    if now > e.expiresAt then
      ((sweepAux registry now rest).1,
        (if e.senderId ∈ registry then [failedEvt e] else []) ++ (sweepAux registry now rest).2)
    else (e :: (sweepAux registry now rest).1, (sweepAux registry now rest).2)

/-- The 30-second setInterval sweep over pendingMessages
(socketManager.js lines 694-710). -/
def clearExpiredPendingMessages (s : ServerState) (now : Int) :
    ServerState × List SEvent :=
  let (keep, evs) := sweepAux s.registry now s.pending
  ({ s with pending := keep }, evs)

/-- attemptDelivery (socketManager.js lines 469-501), the retry closure
over finalMessageId and targetId: return immediately when the message is
no longer pending; otherwise re-check the Connection Registry for the
recipient, and on success deliver, notify the sender if still connected
and remove the entry. -/
def attemptDelivery (s : ServerState) (finalMessageId : String) (targetId : UserId) :
    ServerState × List SEvent :=
  match pendingLookup s.pending finalMessageId with
  | none => (s, [])
  | some pendingMessage =>
    if targetId ∈ s.registry then
      ({ s with pending := pendingDelete s.pending finalMessageId },
        SEvent.newMessage targetId (deliveredPayload pendingMessage) ::
          senderNotify s.registry pendingMessage)
    else (s, [])

/-- The send_message event payload {recipientId, message, messageId?}. -/
structure MsgData where
  recipientId : Option String := none
  message : Option String := none
  messageId : Option String := none
deriving DecidableEq, Repr

/-- Result of one send_message handler invocation: the new state, the
emitted events, and the times (relative to now) at which the scheduled
attemptDelivery retries will fire. -/
structure SendResult where
  state : ServerState
  events : List SEvent
  retriesAt : List Int

/-- The send_message handler (socketManager.js lines 377-516).  genId
stands for the generated fallback id msg_{Date.now()}_{random} used when
the client supplies no (truthy) messageId. -/
def sendMessageHandler (s : ServerState) (senderId : UserId) (data : MsgData)
    (now : Int) (genId : String) : SendResult :=
  if jsFalsyStr data.recipientId || jsFalsyStr data.message then
    ⟨s, [SEvent.messageStatus senderId data.messageId Status.errorStatus none none], []⟩
  else
    match parseIntJs ((data.recipientId).getD "") with
    | none =>
      ⟨s, [SEvent.messageStatus senderId data.messageId Status.errorStatus none none], []⟩
    | some targetId =>
      if targetId = senderId then
        ⟨s, [SEvent.messageStatus senderId data.messageId Status.errorStatus
              (some "Cannot send messages to yourself") none], []⟩
      else
        let msg := (data.message).getD ""
        let finalMessageId := jsStrOr data.messageId genId
        let sessions1 := trackChatSession s.sessions senderId targetId
        if targetId ∈ s.registry then
          ⟨{ s with sessions := sessions1 },
            [SEvent.newMessage targetId
              ⟨finalMessageId, senderId, targetId, msg, now, Status.delivered⟩,
             SEvent.messageStatus senderId (some finalMessageId) Status.delivered none none],
            []⟩
        else
          let entry : PendingMsg :=
            ⟨finalMessageId, senderId, targetId, msg, now, now + 5 * 60 * 1000⟩
          ⟨{ s with sessions := sessions1, pending := pendingSet s.pending entry },
            [SEvent.messageStatus senderId (some finalMessageId) Status.pending none
              (some "Recipient is offline, will retry delivery for 5 minutes")],
            (List.range 10).map (fun i => now + ((i : Int) + 1) * 30000)⟩

/-- The update_location event payload {latitude, longitude}. -/
structure LocData where
  latitude : Option ℚ := none
  longitude : Option ℚ := none
deriving DecidableEq, Repr

/-- The update_location handler (socketManager.js lines 346-374): drop
the event when data, data.latitude or data.longitude is falsy; otherwise
store the position and refresh lastUpdate.  Nothing is ever emitted back
to the sender on this path. -/
def updateLocationHandler (s : ServerState) (userId : UserId)
    (data : Option LocData) (now : Int) : ServerState × List SEvent :=
  match data with
  | none => (s, [])
  | some d =>
    if jsFalsyNum d.latitude || jsFalsyNum d.longitude then (s, [])
    else
      let r1 := storeUserPosition s.redis userId (d.longitude.getD 0) (d.latitude.getD 0)
      let r2 := storeUserDetails r1 userId {} now
      ({ s with redis := r2 }, [])

/-- A JS object is truthy, even when it has no fields; this is the value
hGetAll-produced detail records are tested with in broadcastUserUpdates. -/
def jsObjTruthy (_details : DetailsHash) : Bool := true

/-- Per-user body of broadcastUserUpdates (socketManager.js lines
207-234): fetch position and details, and keep the user when the JS test
details-and-position passes; the details object coming from hGetAll is
always truthy, so the test only constrains the position. -/
def broadcastEntryFor (r : RedisState) (now : Int) (userId : UserId) :
    Option BroadcastEntry :=
  let position := getUserPosition r userId
  let details := getUserDetails r userId
  if jsObjTruthy details then
    match position with
    | some pos =>
      some { id := userId, name := details.name.getD "Unknown", location := pos
             lastUpdate := details.lastUpdate.getD now }
    | none => none
  else none

/-- broadcastUserUpdates (socketManager.js lines 188-244): none when no
user is connected (the early return emits nothing); otherwise the full
filtered list emitted to all clients as users_update. -/
def broadcastUserUpdates (s : ServerState) (now : Int) : Option (List BroadcastEntry) :=
  let activeUserIds := s.registry
  if activeUserIds.isEmpty then none
  else some (activeUserIds.filterMap (broadcastEntryFor s.redis now))

/-! ## Connection lifecycle and auth gate -/

/-- Modelled from the spec: the enhanced verifyToken collaborator whose
result the socket middleware consumes is not under src/ (src/authService.js
carries an older decoded-or-null version); section 6 of the spec fixes its
contract as verifyToken(token) -> {valid, identity} | {valid:false, error},
which this type embeds (ok carries decoded.userId). -/
inductive TokenResult where
  | ok (userId : UserId)
  | bad (errMsg : String)
deriving DecidableEq, Repr

/-- The user row resolved by getUserById, as used by the middleware. -/
structure UserRec where
  id : UserId
  phoneNumber : String
  nickname : String
  isActivated : Bool
deriving DecidableEq, Repr

/-- Outcome of the io.use authentication middleware. -/
inductive AuthResult where
  | rejected (reason : String)
  | accepted (userId : UserId) (phoneNumber : String) (username : String)
deriving DecidableEq, Repr

/-- The io.use middleware (socketManager.js lines 111-185): reject when
the handshake token is missing (JS-falsy), when verifyToken reports the
token invalid, when getUserById fails or resolves no user, or when the
user is not activated; otherwise attach the user data and accept. -/
def socketAuthMiddleware (token : Option String)
    (verifyToken : String → TokenResult)
    (getUserById : UserId → Except String (Option UserRec)) : AuthResult :=
  match token with
  | none => AuthResult.rejected "Authentication error: Token required"
  | some t =>
    if t = "" then AuthResult.rejected "Authentication error: Token required"
    else
      match verifyToken t with
      | TokenResult.bad e => AuthResult.rejected ("Authentication error: " ++ e)
      | TokenResult.ok uid =>
        match getUserById uid with
        | Except.error _ => AuthResult.rejected "Authentication error: Database error"
        | Except.ok none => AuthResult.rejected "Authentication error: User not found"
        | Except.ok (some user) =>
          if !user.isActivated then
            AuthResult.rejected "Authentication error: Account not activated"
          else AuthResult.accepted user.id user.phoneNumber user.nickname

/-- The connection handler (socketManager.js lines 306-343), run only for
accepted sockets: register the connection, flush pending messages for the
user, seed the detail record (name, phone, connect time), acknowledge with
authenticated, and trigger a full presence broadcast. -/
def onConnection (s : ServerState) (userId : UserId) (phoneNumber username : String)
    (now : Int) : ServerState × List SEvent :=
  let s1 := { s with registry := registrySet s.registry userId }
  let flushed := deliverPendingMessages s1 userId
  let s2 := flushed.1
  let patch : DetailsPatch :=
    { name := some username, phoneNumber := some phoneNumber, connectionTime := some now }
  let s3 := { s2 with redis := storeUserDetails s2.redis userId patch now }
  (s3, flushed.2 ++ [SEvent.authenticated userId userId username] ++
    (match broadcastUserUpdates s3 now with
     | some entries => [SEvent.usersUpdate entries]
     | none => []))

/-- A whole connection attempt: middleware then, only on acceptance, the
connection handler.  A rejected attempt leaves the state untouched and
emits nothing (the socket is refused before registration). -/
def handleConnectionAttempt (s : ServerState) (token : Option String)
    (verifyToken : String → TokenResult)
    (getUserById : UserId → Except String (Option UserRec)) (now : Int) :
    ServerState × List SEvent :=
  match socketAuthMiddleware token verifyToken getUserById with
  | AuthResult.rejected _ => (s, [])
  | AuthResult.accepted uid phone uname => onConnection s uid phone uname now

/-! ## Concrete states used to evaluate the definitions -/

/-- The chat session map with no entry at all. -/
def emptySessions : SessionsMap := fun _ => none

/-- The Redis store with no key written. -/
def emptyRedis : RedisState :=
  { positionKey := fun _ => none, geoIndex := fun _ => none, details := fun _ => none }

/-- The socket manager state right after startup. -/
def emptyServer : ServerState :=
  { registry := [], pending := [], sessions := emptySessions, redis := emptyRedis }

/-- A store holding a TTL position snapshot for user 1 and nothing else:
in particular no detail hash for user 1. -/
def cxRedis : RedisState :=
  { emptyRedis with positionKey := Function.update (fun _ => none) 1 (some ⟨10, 20⟩) }

/-- A store where user 1 has only a geospatial-index entry: the TTL
snapshot key has expired and is absent. -/
def gxRedis : RedisState :=
  { emptyRedis with geoIndex := Function.update (fun _ => none) 1 (some ⟨10, 20⟩) }

/-- A server state with user 1 connected, a live position for user 1 and
no detail record for user 1. -/
def cxState : ServerState :=
  { registry := [1], pending := [], sessions := emptySessions, redis := cxRedis }

/-- A pending message from user 1 to user 2, created at time 0. -/
def wMsg : PendingMsg :=
  { messageId := "m1", senderId := 1, recipientId := 2, message := "hola"
    timestamp := 0, expiresAt := 300000 }

/-- A state in which wMsg is queued and its recipient (user 2) is
connected. -/
def wStateOn : ServerState :=
  { registry := [2], pending := [wMsg], sessions := emptySessions, redis := emptyRedis }

/-- A state in which wMsg is queued and nobody is connected. -/
def wStateOff : ServerState :=
  { registry := [], pending := [wMsg], sessions := emptySessions, redis := emptyRedis }

/-- A state in which wMsg is queued and only its sender (user 1) is
connected. -/
def wStateSender : ServerState :=
  { registry := [1], pending := [wMsg], sessions := emptySessions, redis := emptyRedis }

/-- A token verifier accepting exactly the token "tok", for user 7. -/
def wVerify : String → TokenResult :=
  fun t => if t = "tok" then TokenResult.ok 7 else TokenResult.bad "jwt malformed"

/-- A user table resolving only user 7, who is activated. -/
def wUsers : UserId → Except String (Option UserRec) :=
  fun u => if u = 7 then Except.ok (some ⟨7, "600111222", "ana", true⟩) else Except.ok none

/-- The user wUsers resolves for id 7. -/
def wUser : UserRec := ⟨7, "600111222", "ana", true⟩

/-- A token verifier reporting every token valid, for user 9 (whom wUsers
does not resolve). -/
def wVerify9 : String → TokenResult := fun _ => TokenResult.ok 9

/-- A user table resolving only user 7, who is not activated. -/
def wUsersInactive : UserId → Except String (Option UserRec) :=
  fun u => if u = 7 then Except.ok (some ⟨7, "600111222", "bea", false⟩) else Except.ok none

/-! ## Lemmas about the chat session tracker -/

theorem ensureKey_eq (s : SessionsMap) (a : UserId) :
    ensureKey s a = Function.update s a (some ((s a).getD ∅)) := by
  unfold ensureKey
  cases h : s a with
  | none => simp
  | some t =>
    have hupd : Function.update s a (some t) = s := by
      conv_lhs => rw [← h]
      exact Function.update_eq_self a s
    simp [hupd]

theorem trackChatSession_apply (s : SessionsMap) (a b x : UserId) :
    trackChatSession s a b x =
      if x = b then
        some (insert a (if b = a then insert b ((s a).getD ∅) else (s b).getD ∅))
      else if x = a then some (insert b ((s a).getD ∅))
      else s x := by
  unfold trackChatSession
  rw [ensureKey_eq, ensureKey_eq]
  by_cases hxb : x = b <;> by_cases hxa : x = a <;> by_cases hba : b = a <;>
    simp_all [Function.update_apply]

theorem mem_track_iff (s : SessionsMap) (a b x y : UserId) :
    y ∈ getUserActiveSessions (trackChatSession s a b) x ↔
      (x = a ∧ y = b) ∨ (x = b ∧ y = a) ∨ y ∈ getUserActiveSessions s x := by
  unfold getUserActiveSessions
  rw [trackChatSession_apply]
  by_cases hxb : x = b <;> by_cases hxa : x = a <;> by_cases hba : b = a <;>
    simp_all [Finset.mem_insert]

theorem track_idem (s : SessionsMap) (a b : UserId) :
    trackChatSession (trackChatSession s a b) a b = trackChatSession s a b := by
  funext x
  by_cases hxb : x = b <;> by_cases hxa : x = a <;> by_cases hba : b = a <;>
    simp_all [trackChatSession_apply, Finset.insert_idem]

theorem track_symm (s : SessionsMap) (a b : UserId) (h : SymmSessions s) :
    SymmSessions (trackChatSession s a b) := by
  intro x y hy
  rw [mem_track_iff] at hy
  rw [mem_track_iff]
  rcases hy with ⟨hxa, hyb⟩ | ⟨hxb, hya⟩ | hmem
  · exact Or.inr (Or.inl ⟨hyb, hxa⟩)
  · exact Or.inl ⟨hya, hxb⟩
  · exact Or.inr (Or.inr (h x y hmem))

theorem cleanup_apply_none (s : SessionsMap) (a : UserId) (h : s a = none) :
    cleanupUserSessions s a = s := by
  unfold cleanupUserSessions
  rw [h]

theorem cleanup_apply_some (s : SessionsMap) (a : UserId) (partners : Finset UserId)
    (h : s a = some partners) (x : UserId) :
    cleanupUserSessions s a x =
      if x = a then none
      else if x ∈ partners then (s x).map (fun t => t.erase a)
      else s x := by
  unfold cleanupUserSessions
  rw [h]

theorem cleanup_self (s : SessionsMap) (a : UserId) :
    cleanupUserSessions s a a = none := by
  cases h : s a with
  | none => rw [cleanup_apply_none s a h]; exact h
  | some partners => rw [cleanup_apply_some s a partners h]; simp

theorem cleanup_removes (s : SessionsMap) (a x : UserId)
    (hx : x ∈ getUserActiveSessions s a) :
    a ∉ getUserActiveSessions (cleanupUserSessions s a) x := by
  unfold getUserActiveSessions at hx ⊢
  cases hsa : s a with
  | none => rw [hsa] at hx; simp at hx
  | some partners =>
    rw [hsa] at hx
    simp only [Option.getD_some] at hx
    rw [cleanup_apply_some s a partners hsa]
    by_cases hxa : x = a
    · simp [hxa]
    · rw [if_neg hxa, if_pos hx]
      cases hsx : s x with
      | none => simp
      | some t => simp [Finset.not_mem_erase]

theorem cleanup_symm (s : SessionsMap) (a : UserId) (h : SymmSessions s) :
    SymmSessions (cleanupUserSessions s a) := by
  have h' : ∀ u v : UserId, v ∈ (s u).getD ∅ → u ∈ (s v).getD ∅ := h
  intro x y hy
  unfold getUserActiveSessions at hy ⊢
  cases hsa : s a with
  | none => rw [cleanup_apply_none s a hsa] at hy ⊢; exact h' x y hy
  | some partners =>
    rw [cleanup_apply_some s a partners hsa] at hy
    rw [cleanup_apply_some s a partners hsa]
    by_cases hxa : x = a
    · rw [if_pos hxa] at hy; simp at hy
    · rw [if_neg hxa] at hy
      by_cases hxp : x ∈ partners
      · rw [if_pos hxp] at hy
        cases hsx : s x with
        | none => rw [hsx] at hy; simp at hy
        | some t =>
          rw [hsx] at hy
          simp only [Option.map_some', Option.getD_some] at hy
          rw [Finset.mem_erase] at hy
          obtain ⟨hya, hyt⟩ := hy
          have hxy : x ∈ (s y).getD ∅ := h' x y (by rw [hsx]; simpa using hyt)
          rw [if_neg hya]
          by_cases hyp : y ∈ partners
          · rw [if_pos hyp]
            cases hsy : s y with
            | none => rw [hsy] at hxy; simp at hxy
            | some ty =>
              rw [hsy] at hxy
              simp only [Option.getD_some] at hxy
              simp only [Option.map_some', Option.getD_some]
              exact Finset.mem_erase.mpr ⟨hxa, hxy⟩
          · rw [if_neg hyp]; exact hxy
      · rw [if_neg hxp] at hy
        have hxy : x ∈ (s y).getD ∅ := h' x y hy
        by_cases hya : y = a
        · subst hya
          rw [hsa] at hxy
          simp only [Option.getD_some] at hxy
          exact absurd hxy hxp
        · rw [if_neg hya]
          by_cases hyp : y ∈ partners
          · rw [if_pos hyp]
            cases hsy : s y with
            | none => rw [hsy] at hxy; simp at hxy
            | some ty =>
              rw [hsy] at hxy
              simp only [Option.getD_some] at hxy
              simp only [Option.map_some', Option.getD_some]
              exact Finset.mem_erase.mpr ⟨hxa, hxy⟩
          · rw [if_neg hyp]; exact hxy

/-! ## Claim C8 -/

/-- C8: the chat-session relation is symmetric and kept so: after
trackChatSession(a,b) each user is in the other's active-session set and
tracking twice equals tracking once (idempotence); tracking preserves the
symmetry invariant; cleanupUserSessions(a) removes a from the session set
of every partner recorded for a and deletes a's own entry, and it too
preserves symmetry. -/
theorem chatSessions_symmetric_c8 (s : SessionsMap) (a b : UserId) :
    (b ∈ getUserActiveSessions (trackChatSession s a b) a ∧
     a ∈ getUserActiveSessions (trackChatSession s a b) b) ∧
    trackChatSession (trackChatSession s a b) a b = trackChatSession s a b ∧
    (SymmSessions s → SymmSessions (trackChatSession s a b)) ∧
    (∀ x ∈ getUserActiveSessions s a,
      a ∉ getUserActiveSessions (cleanupUserSessions s a) x) ∧
    cleanupUserSessions s a a = none ∧
    (SymmSessions s → SymmSessions (cleanupUserSessions s a)) := by
  refine ⟨⟨?_, ?_⟩, track_idem s a b, track_symm s a b, ?_, cleanup_self s a, cleanup_symm s a⟩
  · rw [mem_track_iff]; tauto
  · rw [mem_track_iff]; tauto
  · intro x hx
    exact cleanup_removes s a x hx

/-- Witness for C8, at the concrete session map obtained by tracking the
pair (1, 2) starting from the empty map. -/
theorem chatSessions_symmetric_c8_witness :
    SymmSessions (trackChatSession emptySessions 1 2) ∧
    2 ∈ getUserActiveSessions (trackChatSession emptySessions 1 2) 1 ∧
    1 ∉ getUserActiveSessions
        (cleanupUserSessions (trackChatSession emptySessions 1 2) 1) 2 ∧
    SymmSessions (cleanupUserSessions (trackChatSession emptySessions 1 2) 1) := by
  have hsymm0 : SymmSessions emptySessions := by
    intro u v hv
    simp [getUserActiveSessions, emptySessions] at hv
  have h0 := chatSessions_symmetric_c8 emptySessions 1 2
  have hsymm : SymmSessions (trackChatSession emptySessions 1 2) := h0.2.2.1 hsymm0
  have h := chatSessions_symmetric_c8 (trackChatSession emptySessions 1 2) 1 2
  exact ⟨hsymm, h0.1.1, h.2.2.2.1 2 h0.1.1, h.2.2.2.2.2 hsymm⟩

/-! ## Claim C7 -/

/-- C7: the snapshot branch and the absent case behave as the claim says
(shown at cxRedis and emptyRedis), but the geospatial fallback does not
return the index coordinates: at gxRedis, where user 1 has the geo-index
entry (longitude 10, latitude 20) and no TTL snapshot, getUserPosition
returns a position whose coordinates are both NaN, because
positions[0][0] and positions[0][1] array-index the node-redis v4 object
reply and read undefined. -/
theorem getUserPosition_geopos_nan_c7 :
    cxRedis.positionKey 1 = some ⟨10, 20⟩ ∧
    getUserPosition cxRedis 1 = some ⟨JSNum.num 10, JSNum.num 20⟩ ∧
    gxRedis.positionKey 1 = none ∧
    gxRedis.geoIndex 1 = some ⟨10, 20⟩ ∧
    getUserPosition gxRedis 1 = some ⟨JSNum.nan, JSNum.nan⟩ ∧
    getUserPosition emptyRedis 2 = none := by
  decide

/-! ## Claim C10 -/

/-- C10: an update_location event whose data is missing or whose latitude
or longitude field is JS-falsy (absent, null or the number 0) is dropped:
the state is unchanged and nothing is emitted to the sender, so a
coordinate exactly on the equator or prime meridian is silently lost. -/
theorem updateLocation_falsy_dropped_c10 (s : ServerState) (userId : UserId)
    (data : Option LocData) (now : Int)
    (h : data = none ∨ ∃ d, data = some d ∧
          (jsFalsyNum d.latitude = true ∨ jsFalsyNum d.longitude = true)) :
    updateLocationHandler s userId data now = (s, []) := by
  rcases h with h | ⟨d, rfl, h⟩
  · subst h; rfl
  · unfold updateLocationHandler
    rcases h with h | h <;> simp [h]

/-- Witness for C10: a position exactly on the equator (latitude 0,
longitude 10) is dropped. -/
theorem updateLocation_falsy_dropped_c10_witness :
    ((some ⟨some 0, some 10⟩ : Option LocData) = none ∨
      ∃ d, (some ⟨some 0, some 10⟩ : Option LocData) = some d ∧
        (jsFalsyNum d.latitude = true ∨ jsFalsyNum d.longitude = true)) ∧
    updateLocationHandler emptyServer 1 (some ⟨some 0, some 10⟩) 3 = (emptyServer, []) := by
  refine ⟨Or.inr ⟨⟨some 0, some 10⟩, rfl, Or.inl (by decide)⟩,
    updateLocation_falsy_dropped_c10 emptyServer 1 (some ⟨some 0, some 10⟩) 3 ?_⟩
  exact Or.inr ⟨⟨some 0, some 10⟩, rfl, Or.inl (by decide)⟩

/-! ## Claim C4 -/

/-- C4: a send_message whose recipientId parses to the sender's own id
yields exactly one message_status with status error to the sender, and
nothing else: the state (registry, pending table, chat sessions, store) is
returned unchanged and no retry is scheduled. -/
theorem sendMessage_self_error_c4 (s : ServerState) (senderId : UserId)
    (data : MsgData) (now : Int) (genId : String)
    (hrid : jsFalsyStr data.recipientId = false)
    (hmsg : jsFalsyStr data.message = false)
    (hparse : parseIntJs ((data.recipientId).getD "") = some senderId) :
    sendMessageHandler s senderId data now genId =
      ⟨s, [SEvent.messageStatus senderId data.messageId Status.errorStatus
            (some "Cannot send messages to yourself") none], []⟩ := by
  unfold sendMessageHandler
  simp [hrid, hmsg, hparse]

/-- Witness for C4: user 5 sending to recipientId "5". -/
theorem sendMessage_self_error_c4_witness :
    jsFalsyStr (some "5") = false ∧ jsFalsyStr (some "hola") = false ∧
    parseIntJs "5" = some 5 ∧
    sendMessageHandler emptyServer 5 ⟨some "5", some "hola", none⟩ 0 "gen" =
      ⟨emptyServer, [SEvent.messageStatus 5 none Status.errorStatus
        (some "Cannot send messages to yourself") none], []⟩ :=
  ⟨rfl, rfl, by decide,
    sendMessage_self_error_c4 emptyServer 5 ⟨some "5", some "hola", none⟩ 0 "gen"
      rfl rfl (by decide)⟩

/-! ## Claim C3 -/

/-- C3: a send_message with a well-formed recipientId distinct from the
sender whose recipient is in the Connection Registry emits exactly the
new_message to the recipient (with status delivered) and the delivered
message_status to the sender; exactly one new_message event is produced;
the pending table is untouched and no retry is scheduled (so the message
can never be delivered a second time); and the chat-session edge between
sender and recipient is recorded in the resulting state. -/
theorem sendMessage_online_delivered_c3 (s : ServerState) (senderId targetId : UserId)
    (data : MsgData) (now : Int) (genId : String)
    (hrid : jsFalsyStr data.recipientId = false)
    (hmsg : jsFalsyStr data.message = false)
    (hparse : parseIntJs ((data.recipientId).getD "") = some targetId)
    (hne : targetId ≠ senderId)
    (honline : targetId ∈ s.registry) :
    (sendMessageHandler s senderId data now genId).events =
      [SEvent.newMessage targetId
        ⟨jsStrOr data.messageId genId, senderId, targetId, (data.message).getD "",
          now, Status.delivered⟩,
       SEvent.messageStatus senderId (some (jsStrOr data.messageId genId))
         Status.delivered none none] ∧
    ((sendMessageHandler s senderId data now genId).events.countP
      (fun ev => match ev with | SEvent.newMessage _ _ => true | _ => false)) = 1 ∧
    (sendMessageHandler s senderId data now genId).state.pending = s.pending ∧
    (sendMessageHandler s senderId data now genId).retriesAt = [] ∧
    targetId ∈ getUserActiveSessions
      (sendMessageHandler s senderId data now genId).state.sessions senderId ∧
    senderId ∈ getUserActiveSessions
      (sendMessageHandler s senderId data now genId).state.sessions targetId := by
  have hres : sendMessageHandler s senderId data now genId =
      ⟨{ s with sessions := trackChatSession s.sessions senderId targetId },
        [SEvent.newMessage targetId
          ⟨jsStrOr data.messageId genId, senderId, targetId, (data.message).getD "",
            now, Status.delivered⟩,
         SEvent.messageStatus senderId (some (jsStrOr data.messageId genId))
           Status.delivered none none], []⟩ := by
    unfold sendMessageHandler
    simp [hrid, hmsg, hparse, hne, honline]
  rw [hres]
  refine ⟨rfl, by simp [List.countP_cons, List.countP_nil], rfl, rfl, ?_, ?_⟩
  · rw [mem_track_iff]; tauto
  · rw [mem_track_iff]; tauto

/-- Witness for C3: user 1 sends "hey" to connected user 2 in wStateOn. -/
theorem sendMessage_online_delivered_c3_witness :
    jsFalsyStr (some "2") = false ∧ jsFalsyStr (some "hey") = false ∧
    parseIntJs "2" = some 2 ∧ (2 : UserId) ≠ 1 ∧ (2 : UserId) ∈ wStateOn.registry ∧
    ((sendMessageHandler wStateOn 1 ⟨some "2", some "hey", some "m9"⟩ 0 "gen").events =
      [SEvent.newMessage 2 ⟨jsStrOr (some "m9") "gen", 1, 2, "hey", 0, Status.delivered⟩,
       SEvent.messageStatus 1 (some (jsStrOr (some "m9") "gen")) Status.delivered none none] ∧
     ((sendMessageHandler wStateOn 1 ⟨some "2", some "hey", some "m9"⟩ 0 "gen").events.countP
       (fun ev => match ev with | SEvent.newMessage _ _ => true | _ => false)) = 1 ∧
     (sendMessageHandler wStateOn 1 ⟨some "2", some "hey", some "m9"⟩ 0 "gen").state.pending =
       wStateOn.pending ∧
     (sendMessageHandler wStateOn 1 ⟨some "2", some "hey", some "m9"⟩ 0 "gen").retriesAt = [] ∧
     2 ∈ getUserActiveSessions
       (sendMessageHandler wStateOn 1 ⟨some "2", some "hey", some "m9"⟩ 0 "gen").state.sessions 1 ∧
     1 ∈ getUserActiveSessions
       (sendMessageHandler wStateOn 1 ⟨some "2", some "hey", some "m9"⟩ 0 "gen").state.sessions 2) :=
  ⟨rfl, rfl, by decide, by decide, by decide,
    sendMessage_online_delivered_c3 wStateOn 1 2 ⟨some "2", some "hey", some "m9"⟩ 0 "gen"
      rfl rfl (by decide) (by decide) (by decide)⟩

/-! ## Lemmas about attemptDelivery and the pending table -/

theorem attemptDelivery_not_pending (s : ServerState) (mid : String) (t : UserId)
    (h : pendingLookup s.pending mid = none) :
    attemptDelivery s mid t = (s, []) := by
  unfold attemptDelivery
  rw [h]

theorem attemptDelivery_recipient_offline (s : ServerState) (mid : String) (t : UserId)
    (e : PendingMsg) (h : pendingLookup s.pending mid = some e) (ht : t ∉ s.registry) :
    attemptDelivery s mid t = (s, []) := by
  unfold attemptDelivery
  rw [h]
  simp [ht]

theorem attemptDelivery_delivers (s : ServerState) (mid : String) (t : UserId)
    (e : PendingMsg) (h : pendingLookup s.pending mid = some e) (ht : t ∈ s.registry) :
    attemptDelivery s mid t =
      ({ s with pending := pendingDelete s.pending mid },
        SEvent.newMessage t (deliveredPayload e) :: senderNotify s.registry e) := by
  unfold attemptDelivery
  rw [h]
  simp [ht]

theorem pendingLookup_delete (l : List PendingMsg) (mid : String) :
    pendingLookup (pendingDelete l mid) mid = none := by
  unfold pendingLookup pendingDelete
  rw [List.find?_eq_none]
  intro x hx
  rw [List.mem_filter] at hx
  simpa using hx.2

theorem pendingLookup_eq_none_of_fresh (l : List PendingMsg) (mid : String)
    (h : ∀ e ∈ l, e.messageId ≠ mid) :
    pendingLookup l mid = none := by
  unfold pendingLookup
  rw [List.find?_eq_none]
  intro x hx
  simpa using h x hx

theorem senderNotify_connected (reg : List UserId) (e : PendingMsg)
    (h : e.senderId ∈ reg) :
    senderNotify reg e =
      [SEvent.messageStatus e.senderId (some e.messageId) Status.delivered none none] := by
  unfold senderNotify
  simp [h]

theorem senderNotify_gone (reg : List UserId) (e : PendingMsg)
    (h : e.senderId ∉ reg) : senderNotify reg e = [] := by
  unfold senderNotify
  simp [h]

/-! ## Claim C5 -/

/-- C5: a scheduled retry attempt re-checks the current Connection
Registry: when the message is no longer pending (already delivered or
expired) it is a strict no-op (state unchanged, no events); when the
message is pending but the recipient is still absent it changes nothing;
and when the message is pending and the recipient is now registered, the
attempt emits the message to the recipient, notifies the sender exactly
when the sender is still connected, and removes the PendingMessage, so
later attempts fall into the no-op case. -/
theorem attemptDelivery_retry_c5 :
    (∀ (s : ServerState) (mid : String) (t : UserId),
      pendingLookup s.pending mid = none → attemptDelivery s mid t = (s, [])) ∧
    (∀ (s : ServerState) (mid : String) (t : UserId) (e : PendingMsg),
      pendingLookup s.pending mid = some e → t ∉ s.registry →
      attemptDelivery s mid t = (s, [])) ∧
    (∀ (s : ServerState) (mid : String) (t : UserId) (e : PendingMsg),
      pendingLookup s.pending mid = some e → t ∈ s.registry →
      (attemptDelivery s mid t).2 =
        SEvent.newMessage t (deliveredPayload e) :: senderNotify s.registry e ∧
      pendingLookup (attemptDelivery s mid t).1.pending mid = none ∧
      (e.senderId ∈ s.registry → senderNotify s.registry e =
        [SEvent.messageStatus e.senderId (some e.messageId) Status.delivered none none]) ∧
      (e.senderId ∉ s.registry → senderNotify s.registry e = [])) := by
  refine ⟨attemptDelivery_not_pending, attemptDelivery_recipient_offline, ?_⟩
  intro s mid t e h ht
  rw [attemptDelivery_delivers s mid t e h ht]
  exact ⟨rfl, pendingLookup_delete s.pending mid,
    senderNotify_connected s.registry e, senderNotify_gone s.registry e⟩

/-- Witness for C5: the no-op case at the empty server and the successful
delivery of wMsg to connected user 2 in wStateOn (whose sender, user 1, is
no longer connected). -/
theorem attemptDelivery_retry_c5_witness :
    pendingLookup emptyServer.pending "m1" = none ∧
    attemptDelivery emptyServer "m1" 2 = (emptyServer, []) ∧
    pendingLookup wStateOn.pending "m1" = some wMsg ∧
    (2 : UserId) ∈ wStateOn.registry ∧
    (attemptDelivery wStateOn "m1" 2).2 =
      SEvent.newMessage 2 (deliveredPayload wMsg) :: senderNotify wStateOn.registry wMsg ∧
    pendingLookup (attemptDelivery wStateOn "m1" 2).1.pending "m1" = none ∧
    (1 : UserId) ∉ wStateOn.registry ∧
    senderNotify wStateOn.registry wMsg = [] := by
  have h := attemptDelivery_retry_c5
  have h3 := h.2.2 wStateOn "m1" 2 wMsg (by decide) (by decide)
  exact ⟨by decide, h.1 emptyServer "m1" 2 (by decide), by decide, by decide,
    h3.1, h3.2.1, by decide, h3.2.2.2 (by decide)⟩

/-! ## Lemmas about the connect-time pending-message flush -/

theorem flushPending_events_mono (reg : List UserId) (uid : UserId)
    (f : PendingMsg) (rest : List PendingMsg) :
    ∀ ev ∈ (flushPending reg uid rest).2, ev ∈ (flushPending reg uid (f :: rest)).2 := by
  intro ev hev
  simp only [flushPending]
  by_cases hf : f.recipientId = uid
  · rw [if_pos hf]
    by_cases hreg : uid ∈ reg
    · rw [if_pos hreg]
      exact List.mem_cons_of_mem _ (List.mem_append_right _ hev)
    · rw [if_neg hreg]; exact hev
  · rw [if_neg hf]; exact hev

theorem flushPending_delivers (reg : List UserId) (uid : UserId) (l : List PendingMsg)
    (e : PendingMsg) (he : e ∈ l) (her : e.recipientId = uid) (hon : uid ∈ reg) :
    SEvent.newMessage uid (deliveredPayload e) ∈ (flushPending reg uid l).2 ∧
    (e.senderId ∈ reg →
      SEvent.messageStatus e.senderId (some e.messageId) Status.delivered none none
        ∈ (flushPending reg uid l).2) := by
  induction l with
  | nil => simp at he
  | cons f rest ih =>
    rcases List.mem_cons.mp he with rfl | hrest
    · refine ⟨?_, fun hs => ?_⟩
      · simp only [flushPending]
        rw [if_pos her, if_pos hon]
        exact List.mem_cons_self _ _
      · simp only [flushPending]
        rw [if_pos her, if_pos hon, senderNotify_connected reg e hs]
        exact List.mem_cons_of_mem _ (List.mem_append_left _ (List.mem_cons_self _ _))
    · have hpair := ih hrest
      exact ⟨flushPending_events_mono reg uid f rest _ hpair.1,
        fun hs => flushPending_events_mono reg uid f rest _ (hpair.2 hs)⟩

theorem flushPending_clears (reg : List UserId) (uid : UserId) (l : List PendingMsg)
    (hon : uid ∈ reg) :
    ∀ f ∈ (flushPending reg uid l).1, f.recipientId ≠ uid := by
  induction l with
  | nil => intro f hf; simp [flushPending] at hf
  | cons g rest ih =>
    intro f hf
    simp only [flushPending] at hf
    by_cases hg : g.recipientId = uid
    · rw [if_pos hg, if_pos hon] at hf
      exact ih f hf
    · rw [if_neg hg] at hf
      have hf' : f ∈ g :: (flushPending reg uid rest).1 := hf
      rcases List.mem_cons.mp hf' with rfl | h2
      · exact hg
      · exact ih f h2

theorem registrySet_mem_self (l : List UserId) (uid : UserId) :
    uid ∈ registrySet l uid := by
  unfold registrySet
  by_cases h : uid ∈ l
  · rw [if_pos h]; exact h
  · rw [if_neg h]; simp

theorem onConnection_pending (s : ServerState) (uid : UserId) (phone uname : String)
    (now : Int) :
    (onConnection s uid phone uname now).1.pending =
      (flushPending (registrySet s.registry uid) uid s.pending).1 := rfl

theorem onConnection_registry (s : ServerState) (uid : UserId) (phone uname : String)
    (now : Int) :
    (onConnection s uid phone uname now).1.registry = registrySet s.registry uid := rfl

theorem onConnection_events_flush_sub (s : ServerState) (uid : UserId)
    (phone uname : String) (now : Int) :
    ∀ ev ∈ (flushPending (registrySet s.registry uid) uid s.pending).2,
      ev ∈ (onConnection s uid phone uname now).2 := by
  intro ev hev
  exact List.mem_append_left _ (List.mem_append_left _ hev)

/-! ## Claim C9 -/

/-- C9: the connection handler flushes the pending table synchronously:
for every PendingMessage addressed to the connecting user, the handler
itself (not a later retry tick) emits the new_message with status
delivered to the new connection, notifies the original sender with a
delivered status when the sender is connected, and afterwards no entry
addressed to the user remains in the pending table. -/
theorem connect_flushes_pending_c9 (s : ServerState) (userId : UserId)
    (phone uname : String) (now : Int) (e : PendingMsg)
    (he : e ∈ s.pending) (her : e.recipientId = userId) :
    SEvent.newMessage userId (deliveredPayload e) ∈
      (onConnection s userId phone uname now).2 ∧
    (e.senderId ∈ registrySet s.registry userId →
      SEvent.messageStatus e.senderId (some e.messageId) Status.delivered none none
        ∈ (onConnection s userId phone uname now).2) ∧
    ∀ f ∈ (onConnection s userId phone uname now).1.pending, f.recipientId ≠ userId := by
  have hon : userId ∈ registrySet s.registry userId := registrySet_mem_self s.registry userId
  have hdel := flushPending_delivers (registrySet s.registry userId) userId s.pending e he her hon
  refine ⟨onConnection_events_flush_sub s userId phone uname now _ hdel.1,
    fun hs => onConnection_events_flush_sub s userId phone uname now _ (hdel.2 hs), ?_⟩
  rw [onConnection_pending]
  exact flushPending_clears (registrySet s.registry userId) userId s.pending hon

/-- Witness for C9: user 2 connects while wMsg (addressed to user 2) is
queued; the flush delivers it and clears the table. -/
theorem connect_flushes_pending_c9_witness :
    wMsg ∈ wStateOff.pending ∧ wMsg.recipientId = 2 ∧
    SEvent.newMessage 2 (deliveredPayload wMsg) ∈ (onConnection wStateOff 2 "p" "n" 7).2 ∧
    ∀ f ∈ (onConnection wStateOff 2 "p" "n" 7).1.pending, f.recipientId ≠ 2 := by
  have h := connect_flushes_pending_c9 wStateOff 2 "p" "n" 7 wMsg (by decide) (by decide)
  exact ⟨by decide, by decide, h.1, h.2.2⟩

/-! ## Lemmas about the expiry sweep and the offline send path -/

theorem sweepAux_kept_not_expired (reg : List UserId) (now : Int) (l : List PendingMsg) :
    ∀ f ∈ (sweepAux reg now l).1, ¬ now > f.expiresAt := by
  induction l with
  | nil => intro f hf; simp [sweepAux] at hf
  | cons g rest ih =>
    intro f hf
    simp only [sweepAux] at hf
    by_cases hg : now > g.expiresAt
    · rw [if_pos hg] at hf
      exact ih f hf
    · rw [if_neg hg] at hf
      have hf' : f ∈ g :: (sweepAux reg now rest).1 := hf
      rcases List.mem_cons.mp hf' with rfl | h2
      · exact hg
      · exact ih f h2

theorem sweepAux_emits (reg : List UserId) (now : Int) (l : List PendingMsg)
    (e : PendingMsg) (he : e ∈ l) (hexp : now > e.expiresAt) (hs : e.senderId ∈ reg) :
    failedEvt e ∈ (sweepAux reg now l).2 := by
  induction l with
  | nil => simp at he
  | cons g rest ih =>
    simp only [sweepAux]
    rcases List.mem_cons.mp he with rfl | hrest
    · rw [if_pos hexp, if_pos hs]
      exact List.mem_append_left _ (List.mem_cons_self _ _)
    · by_cases hg : now > g.expiresAt
      · rw [if_pos hg]
        exact List.mem_append_right _ (ih hrest)
      · rw [if_neg hg]
        exact ih hrest

theorem sweepAux_events_shape (reg : List UserId) (now : Int) (l : List PendingMsg) :
    ∀ ev ∈ (sweepAux reg now l).2,
      ∃ e, e ∈ l ∧ now > e.expiresAt ∧ e.senderId ∈ reg ∧ ev = failedEvt e := by
  induction l with
  | nil => intro ev hev; simp [sweepAux] at hev
  | cons g rest ih =>
    intro ev hev
    simp only [sweepAux] at hev
    by_cases hg : now > g.expiresAt
    · rw [if_pos hg] at hev
      have hev' : ev ∈ (if g.senderId ∈ reg then [failedEvt g] else []) ++
          (sweepAux reg now rest).2 := hev
      rcases List.mem_append.mp hev' with h1 | h2
      · by_cases hgs : g.senderId ∈ reg
        · rw [if_pos hgs] at h1
          exact ⟨g, List.mem_cons_self _ _, hg, hgs, List.mem_singleton.mp h1⟩
        · rw [if_neg hgs] at h1; simp at h1
      · obtain ⟨e, hel, hexp, hs, rfl⟩ := ih ev h2
        exact ⟨e, List.mem_cons_of_mem _ hel, hexp, hs, rfl⟩
    · rw [if_neg hg] at hev
      obtain ⟨e, hel, hexp, hs, rfl⟩ := ih ev hev
      exact ⟨e, List.mem_cons_of_mem _ hel, hexp, hs, rfl⟩

theorem clearExpired_pending (s : ServerState) (now : Int) :
    (clearExpiredPendingMessages s now).1.pending = (sweepAux s.registry now s.pending).1 :=
  rfl

theorem clearExpired_events (s : ServerState) (now : Int) :
    (clearExpiredPendingMessages s now).2 = (sweepAux s.registry now s.pending).2 :=
  rfl

theorem pendingSet_fresh (l : List PendingMsg) (e : PendingMsg)
    (h : ∀ x ∈ l, x.messageId ≠ e.messageId) : pendingSet l e = l ++ [e] := by
  have hany : ¬ (l.any (fun x => x.messageId = e.messageId) = true) := by
    simp only [List.any_eq_true, decide_eq_true_eq]
    push_neg
    exact h
  unfold pendingSet
  rw [if_neg hany]

theorem sendMessage_offline_eq (s : ServerState) (senderId targetId : UserId)
    (data : MsgData) (now : Int) (genId : String)
    (hrid : jsFalsyStr data.recipientId = false)
    (hmsg : jsFalsyStr data.message = false)
    (hparse : parseIntJs ((data.recipientId).getD "") = some targetId)
    (hne : targetId ≠ senderId)
    (hoff : targetId ∉ s.registry) :
    sendMessageHandler s senderId data now genId =
      ⟨{ s with
          sessions := trackChatSession s.sessions senderId targetId
          pending := pendingSet s.pending
            ⟨jsStrOr data.messageId genId, senderId, targetId, (data.message).getD "",
              now, now + 5 * 60 * 1000⟩ },
        [SEvent.messageStatus senderId (some (jsStrOr data.messageId genId)) Status.pending
          none (some "Recipient is offline, will retry delivery for 5 minutes")],
        (List.range 10).map (fun i => now + ((i : Int) + 1) * 30000)⟩ := by
  unfold sendMessageHandler
  simp [hrid, hmsg, hparse, hne, hoff]

/-! ## Claim C2 -/

/-- C2: the offline-message lifecycle.  A send_message to an absent
recipient acknowledges the sender with status pending and stores a
PendingMessage expiring 5 minutes after creation; a retry that finds the
recipient connected delivers the message, notifies the sender when still
connected, and removes the entry; the 30-second sweep removes every entry
strictly past its expiry, notifying the sender of failed exactly when the
sender is still connected; and once the entry is gone, the retry is a
strict no-op and the sweep emits no event for that message id, so the
message reaches exactly one terminal state and the entry no longer
exists afterwards. -/
theorem pendingMessage_lifecycle_c2 :
    (∀ (s : ServerState) (senderId targetId : UserId) (data : MsgData)
        (now : Int) (genId : String),
      jsFalsyStr data.recipientId = false → jsFalsyStr data.message = false →
      parseIntJs ((data.recipientId).getD "") = some targetId →
      targetId ≠ senderId → targetId ∉ s.registry →
      (∀ e ∈ s.pending, e.messageId ≠ jsStrOr data.messageId genId) →
      (sendMessageHandler s senderId data now genId).events =
        [SEvent.messageStatus senderId (some (jsStrOr data.messageId genId)) Status.pending
          none (some "Recipient is offline, will retry delivery for 5 minutes")] ∧
      (sendMessageHandler s senderId data now genId).state.pending =
        s.pending ++ [⟨jsStrOr data.messageId genId, senderId, targetId,
          (data.message).getD "", now, now + 5 * 60 * 1000⟩]) ∧
    (∀ (s : ServerState) (mid : String) (t : UserId) (e : PendingMsg),
      pendingLookup s.pending mid = some e → t ∈ s.registry →
      SEvent.newMessage t (deliveredPayload e) ∈ (attemptDelivery s mid t).2 ∧
      (e.senderId ∈ s.registry →
        SEvent.messageStatus e.senderId (some e.messageId) Status.delivered none none
          ∈ (attemptDelivery s mid t).2) ∧
      pendingLookup (attemptDelivery s mid t).1.pending mid = none) ∧
    (∀ (s : ServerState) (now : Int) (e : PendingMsg),
      e ∈ s.pending → now > e.expiresAt →
      e ∉ (clearExpiredPendingMessages s now).1.pending ∧
      (e.senderId ∈ s.registry → failedEvt e ∈ (clearExpiredPendingMessages s now).2) ∧
      (e.senderId ∉ s.registry →
        ∀ ev ∈ (clearExpiredPendingMessages s now).2,
          ∀ mid st em nt, ev = SEvent.messageStatus e.senderId mid st em nt → False)) ∧
    (∀ (s : ServerState) (now : Int) (mid : String) (t : UserId),
      (∀ e ∈ s.pending, e.messageId ≠ mid) →
      attemptDelivery s mid t = (s, []) ∧
      (∀ ev ∈ (clearExpiredPendingMessages s now).2,
        ∀ dst st em nt, ev = SEvent.messageStatus dst (some mid) st em nt → False)) := by
  refine ⟨?_, ?_, ?_, ?_⟩
  · intro s senderId targetId data now genId hrid hmsg hparse hne hoff hfresh
    rw [sendMessage_offline_eq s senderId targetId data now genId hrid hmsg hparse hne hoff]
    refine ⟨rfl, ?_⟩
    exact pendingSet_fresh s.pending
      ⟨jsStrOr data.messageId genId, senderId, targetId, (data.message).getD "",
        now, now + 5 * 60 * 1000⟩ hfresh
  · intro s mid t e h ht
    rw [attemptDelivery_delivers s mid t e h ht]
    refine ⟨List.mem_cons_self _ _, fun hs => ?_, pendingLookup_delete s.pending mid⟩
    rw [senderNotify_connected s.registry e hs]
    exact List.mem_cons_of_mem _ (List.mem_cons_self _ _)
  · intro s now e he hexp
    refine ⟨fun hmem => ?_, fun hs => ?_, fun hgone ev hev mid st em nt heq => ?_⟩
    · rw [clearExpired_pending] at hmem
      exact sweepAux_kept_not_expired s.registry now s.pending e hmem hexp
    · rw [clearExpired_events]
      exact sweepAux_emits s.registry now s.pending e he hexp hs
    · rw [clearExpired_events] at hev
      obtain ⟨f, _, _, hfreg, rfl⟩ := sweepAux_events_shape s.registry now s.pending ev hev
      unfold failedEvt at heq
      have hsend : f.senderId = e.senderId := by
        injection heq
      rw [hsend] at hfreg
      exact hgone hfreg
  · intro s now mid t hfresh
    refine ⟨attemptDelivery_not_pending s mid t
      (pendingLookup_eq_none_of_fresh s.pending mid hfresh), ?_⟩
    intro ev hev dst st em nt heq
    rw [clearExpired_events] at hev
    obtain ⟨f, hfl, _, _, rfl⟩ := sweepAux_events_shape s.registry now s.pending ev hev
    unfold failedEvt at heq
    have hmid : some f.messageId = some mid := by
      injection heq with h1 h2
    exact hfresh f hfl (Option.some_injective _ hmid)

/-- Witness for C2: the offline send of "m1" from user 1 to user 2 at the
empty server; the retry delivery of wMsg in wStateOn; the expiry sweep of
wMsg in wStateSender (sender still connected, time past expiry); and the
no-op behaviour once no entry with id "m1" exists. -/
theorem pendingMessage_lifecycle_c2_witness :
    ((2 : UserId) ∉ emptyServer.registry ∧
     (∀ e ∈ emptyServer.pending, e.messageId ≠ jsStrOr (some "m1") "g") ∧
     (sendMessageHandler emptyServer 1 ⟨some "2", some "hola", some "m1"⟩ 0 "g").state.pending =
       emptyServer.pending ++ [⟨jsStrOr (some "m1") "g", 1, 2, "hola", 0, 0 + 5 * 60 * 1000⟩]) ∧
    (pendingLookup wStateOn.pending "m1" = some wMsg ∧
     SEvent.newMessage 2 (deliveredPayload wMsg) ∈ (attemptDelivery wStateOn "m1" 2).2 ∧
     pendingLookup (attemptDelivery wStateOn "m1" 2).1.pending "m1" = none) ∧
    (wMsg ∈ wStateSender.pending ∧ (300001 : Int) > wMsg.expiresAt ∧
     wMsg ∉ (clearExpiredPendingMessages wStateSender 300001).1.pending ∧
     failedEvt wMsg ∈ (clearExpiredPendingMessages wStateSender 300001).2) ∧
    attemptDelivery emptyServer "m1" 2 = (emptyServer, []) := by
  have h := pendingMessage_lifecycle_c2
  have h1 := h.1 emptyServer 1 2 ⟨some "2", some "hola", some "m1"⟩ 0 "g"
    rfl rfl (by decide) (by decide) (by decide) (by decide)
  have h2 := h.2.1 wStateOn "m1" 2 wMsg (by decide) (by decide)
  have h3 := h.2.2.1 wStateSender 300001 wMsg (by decide) (by decide)
  have h4 := h.2.2.2 emptyServer 0 "m1" 2 (by decide)
  exact ⟨⟨by decide, by decide, h1.2⟩, ⟨by decide, h2.1, h2.2.2⟩,
    ⟨by decide, by decide, h3.1, h3.2.1 (by decide)⟩, h4.1⟩

/-! ## Lemmas about the presence broadcast and the connection handler -/

theorem broadcastUserUpdates_of_ne_nil (s : ServerState) (now : Int)
    (h : s.registry ≠ []) :
    broadcastUserUpdates s now =
      some (s.registry.filterMap (broadcastEntryFor s.redis now)) := by
  unfold broadcastUserUpdates
  cases hreg : s.registry with
  | nil => exact absurd hreg h
  | cons a l => simp

theorem onConnection_events_eq (s : ServerState) (uid : UserId)
    (phone uname : String) (now : Int) :
    (onConnection s uid phone uname now).2 =
      (flushPending (registrySet s.registry uid) uid s.pending).2 ++
        [SEvent.authenticated uid uid uname] ++
        (match broadcastUserUpdates (onConnection s uid phone uname now).1 now with
         | some entries => [SEvent.usersUpdate entries]
         | none => []) := rfl

theorem onConnection_emits_broadcast (s : ServerState) (uid : UserId)
    (phone uname : String) (now : Int) :
    ∃ entries, SEvent.usersUpdate entries ∈ (onConnection s uid phone uname now).2 := by
  have hne : (onConnection s uid phone uname now).1.registry ≠ [] := by
    rw [onConnection_registry]
    exact List.ne_nil_of_mem (registrySet_mem_self s.registry uid)
  have hb := broadcastUserUpdates_of_ne_nil (onConnection s uid phone uname now).1 now hne
  refine ⟨List.filterMap
    (broadcastEntryFor (onConnection s uid phone uname now).1.redis now)
    (onConnection s uid phone uname now).1.registry, ?_⟩
  rw [onConnection_events_eq, hb]
  exact List.mem_append_right _ (List.mem_cons_self _ _)

/-! ## Claim C1 -/

/-- C1: the auth gate.  A connection attempt with a missing token, a
token the verifyToken collaborator reports invalid, an unresolvable user,
or a user that is not activated is refused before registration: the state
is unchanged and nothing is emitted.  An attempt whose token is reported
valid for a user that resolves and is activated is registered in the
Connection Registry, has its detail record seeded with name, phone number
and connect time, receives the authenticated acknowledgment, and triggers
a users_update presence broadcast. -/
theorem auth_gate_c1 :
    (∀ (s : ServerState) (vt : String → TokenResult)
        (gu : UserId → Except String (Option UserRec)) (now : Int),
      handleConnectionAttempt s none vt gu now = (s, [])) ∧
    (∀ (s : ServerState) (vt : String → TokenResult)
        (gu : UserId → Except String (Option UserRec)) (now : Int) (t msg : String),
      t ≠ "" → vt t = TokenResult.bad msg →
      handleConnectionAttempt s (some t) vt gu now = (s, [])) ∧
    (∀ (s : ServerState) (vt : String → TokenResult)
        (gu : UserId → Except String (Option UserRec)) (now : Int)
        (t : String) (uid : UserId),
      t ≠ "" → vt t = TokenResult.ok uid → gu uid = Except.ok none →
      handleConnectionAttempt s (some t) vt gu now = (s, [])) ∧
    (∀ (s : ServerState) (vt : String → TokenResult)
        (gu : UserId → Except String (Option UserRec)) (now : Int)
        (t : String) (uid : UserId) (user : UserRec),
      t ≠ "" → vt t = TokenResult.ok uid → gu uid = Except.ok (some user) →
      user.isActivated = false →
      handleConnectionAttempt s (some t) vt gu now = (s, [])) ∧
    (∀ (s : ServerState) (vt : String → TokenResult)
        (gu : UserId → Except String (Option UserRec)) (now : Int)
        (t : String) (uid : UserId) (user : UserRec),
      t ≠ "" → vt t = TokenResult.ok uid → gu uid = Except.ok (some user) →
      user.isActivated = true →
      user.id ∈ (handleConnectionAttempt s (some t) vt gu now).1.registry ∧
      (getUserDetails (handleConnectionAttempt s (some t) vt gu now).1.redis
        user.id).name = some user.nickname ∧
      (getUserDetails (handleConnectionAttempt s (some t) vt gu now).1.redis
        user.id).phoneNumber = some user.phoneNumber ∧
      (getUserDetails (handleConnectionAttempt s (some t) vt gu now).1.redis
        user.id).connectionTime = some now ∧
      SEvent.authenticated user.id user.id user.nickname ∈
        (handleConnectionAttempt s (some t) vt gu now).2 ∧
      ∃ entries, SEvent.usersUpdate entries ∈
        (handleConnectionAttempt s (some t) vt gu now).2) := by
  refine ⟨?_, ?_, ?_, ?_, ?_⟩
  · intro s vt gu now
    rfl
  · intro s vt gu now t msg ht hvt
    unfold handleConnectionAttempt socketAuthMiddleware
    simp [ht, hvt]
  · intro s vt gu now t uid ht hvt hgu
    unfold handleConnectionAttempt socketAuthMiddleware
    simp [ht, hvt, hgu]
  · intro s vt gu now t uid user ht hvt hgu hact
    unfold handleConnectionAttempt socketAuthMiddleware
    simp [ht, hvt, hgu, hact]
  · intro s vt gu now t uid user ht hvt hgu hact
    have hmw : socketAuthMiddleware (some t) vt gu =
        AuthResult.accepted user.id user.phoneNumber user.nickname := by
      unfold socketAuthMiddleware
      simp [ht, hvt, hgu, hact]
    have hconn : handleConnectionAttempt s (some t) vt gu now =
        onConnection s user.id user.phoneNumber user.nickname now := by
      unfold handleConnectionAttempt
      rw [hmw]
    rw [hconn]
    refine ⟨?_, ?_, ?_, ?_, ?_, ?_⟩
    · rw [onConnection_registry]
      exact registrySet_mem_self s.registry user.id
    · show (getUserDetails (storeUserDetails _ user.id
        ⟨some user.nickname, some user.phoneNumber, some now, none⟩ now) user.id).name =
          some user.nickname
      unfold getUserDetails storeUserDetails
      simp [Function.update_same]
    · show (getUserDetails (storeUserDetails _ user.id
        ⟨some user.nickname, some user.phoneNumber, some now, none⟩ now) user.id).phoneNumber =
          some user.phoneNumber
      unfold getUserDetails storeUserDetails
      simp [Function.update_same]
    · show (getUserDetails (storeUserDetails _ user.id
        ⟨some user.nickname, some user.phoneNumber, some now, none⟩ now) user.id).connectionTime =
          some now
      unfold getUserDetails storeUserDetails
      simp [Function.update_same]
    · exact List.mem_append_left _ (List.mem_append_right _ (List.mem_cons_self _ _))
    · exact onConnection_emits_broadcast s user.id user.phoneNumber user.nickname now

/-- Witness for C1: the rejection of a bad token, of an unknown user and
of a non-activated user, and the acceptance of token "tok" for the
activated user 7 at the empty server. -/
theorem auth_gate_c1_witness :
    handleConnectionAttempt emptyServer none wVerify wUsers 5 = (emptyServer, []) ∧
    ("bad" ≠ "" ∧ wVerify "bad" = TokenResult.bad "jwt malformed" ∧
      handleConnectionAttempt emptyServer (some "bad") wVerify wUsers 5 = (emptyServer, [])) ∧
    ("x" ≠ "" ∧ wVerify9 "x" = TokenResult.ok 9 ∧ wUsers 9 = Except.ok none ∧
      handleConnectionAttempt emptyServer (some "x") wVerify9 wUsers 5 = (emptyServer, [])) ∧
    (wUsersInactive 7 = Except.ok (some ⟨7, "600111222", "bea", false⟩) ∧
      handleConnectionAttempt emptyServer (some "tok") wVerify wUsersInactive 5 =
        (emptyServer, [])) ∧
    ("tok" ≠ "" ∧ wVerify "tok" = TokenResult.ok 7 ∧ wUsers 7 = Except.ok (some wUser) ∧
      wUser.isActivated = true ∧
      wUser.id ∈ (handleConnectionAttempt emptyServer (some "tok") wVerify wUsers 5).1.registry ∧
      (getUserDetails (handleConnectionAttempt emptyServer (some "tok") wVerify wUsers 5).1.redis
        wUser.id).name = some wUser.nickname ∧
      (getUserDetails (handleConnectionAttempt emptyServer (some "tok") wVerify wUsers 5).1.redis
        wUser.id).connectionTime = some 5 ∧
      SEvent.authenticated wUser.id wUser.id wUser.nickname ∈
        (handleConnectionAttempt emptyServer (some "tok") wVerify wUsers 5).2 ∧
      ∃ entries, SEvent.usersUpdate entries ∈
        (handleConnectionAttempt emptyServer (some "tok") wVerify wUsers 5).2) := by
  have h := auth_gate_c1
  have h5 := h.2.2.2.2 emptyServer wVerify wUsers 5 "tok" 7 wUser
    (by decide) (by decide) rfl rfl
  exact ⟨h.1 emptyServer wVerify wUsers 5,
    ⟨by decide, by decide, h.2.1 emptyServer wVerify wUsers 5 "bad" "jwt malformed"
      (by decide) (by decide)⟩,
    ⟨by decide, rfl, rfl, h.2.2.1 emptyServer wVerify9 wUsers 5 "x" 9
      (by decide) rfl rfl⟩,
    ⟨rfl, h.2.2.2.1 emptyServer wVerify wUsersInactive 5 "tok" 7
      ⟨7, "600111222", "bea", false⟩ (by decide) (by decide) rfl rfl⟩,
    ⟨by decide, by decide, rfl, rfl, h5.1, h5.2.1, h5.2.2.2.1, h5.2.2.2.2.1,
      h5.2.2.2.2.2⟩⟩

/-! ## Claim C6 -/

theorem broadcastEntryFor_id (r : RedisState) (now : Int) (u : UserId)
    (en : BroadcastEntry) (h : broadcastEntryFor r now u = some en) : en.id = u := by
  unfold broadcastEntryFor jsObjTruthy at h
  simp only [if_true] at h
  cases hp : getUserPosition r u with
  | none => rw [hp] at h; exact absurd h (by simp)
  | some pos =>
    rw [hp] at h
    simp only [Option.some_inj] at h
    rw [← h]

theorem broadcastEntryFor_isSome (r : RedisState) (now : Int) (u : UserId) :
    (broadcastEntryFor r now u).isSome = (getUserPosition r u).isSome := by
  unfold broadcastEntryFor jsObjTruthy
  cases hp : getUserPosition r u <;> simp

/-- C6 counterexample: in cxState user 1 is connected and has a live
position but no detail record at all, yet broadcastUserUpdates includes
user 1 in the emitted list (with the fallback name "Unknown").  The
detail lookup cannot exclude anyone: hGetAll returns an empty, truthy
object for a missing hash, so the details-and-position test of the source
only constrains the position.  This refutes "included only if both the
position and the detail record are present". -/
theorem broadcast_details_absent_c6_counterexample :
    (∃ entries, broadcastUserUpdates cxState 0 = some entries ∧
      ∃ en ∈ entries, en.id = 1) ∧
    cxState.redis.details 1 = none :=
  ⟨⟨[⟨1, "Unknown", ⟨JSNum.num 10, JSNum.num 20⟩, 0⟩], by decide,
     ⟨1, "Unknown", ⟨JSNum.num 10, JSNum.num 20⟩, 0⟩, by decide, rfl⟩, rfl⟩

/-- C6 as amended: every full presence broadcast (emitted whenever at
least one user is connected) enumerates exactly the identities in the
Connection Registry, and a user appears in the emitted users_update list
if and only if the user is in the registry and has a position record; the
detail record does not influence inclusion.  The list is the complete
snapshot sent to all clients, not a delta. -/
theorem broadcast_snapshot_c6_amended (s : ServerState) (now : Int)
    (hne : s.registry ≠ []) :
    ∃ entries, broadcastUserUpdates s now = some entries ∧
      ∀ u : UserId, (∃ en ∈ entries, en.id = u) ↔
        (u ∈ s.registry ∧ (getUserPosition s.redis u).isSome = true) := by
  refine ⟨_, broadcastUserUpdates_of_ne_nil s now hne, ?_⟩
  intro u
  constructor
  · rintro ⟨en, hen, rfl⟩
    rw [List.mem_filterMap] at hen
    obtain ⟨a, ha, hfa⟩ := hen
    have hid := broadcastEntryFor_id s.redis now a en hfa
    rw [hid]
    refine ⟨ha, ?_⟩
    rw [← broadcastEntryFor_isSome s.redis now a, hfa]
    rfl
  · rintro ⟨hu, hpos⟩
    obtain ⟨pos, hp⟩ := Option.isSome_iff_exists.mp hpos
    refine ⟨⟨u, (getUserDetails s.redis u).name.getD "Unknown", pos,
      (getUserDetails s.redis u).lastUpdate.getD now⟩, ?_, rfl⟩
    rw [List.mem_filterMap]
    refine ⟨u, hu, ?_⟩
    unfold broadcastEntryFor jsObjTruthy
    simp only [if_true]
    rw [hp]

/-- Witness for the amended C6, at cxState (one connected user with a
position and no detail record). -/
theorem broadcast_snapshot_c6_amended_witness :
    cxState.registry ≠ [] ∧
    ∃ entries, broadcastUserUpdates cxState 0 = some entries ∧
      ∀ u : UserId, (∃ en ∈ entries, en.id = u) ↔
        (u ∈ cxState.registry ∧ (getUserPosition cxState.redis u).isSome = true) :=
  ⟨by decide, broadcast_snapshot_c6_amended cxState 0 (by decide)⟩

end PeregrinApp
